import Mathlib

/-!
Verification of the number-guessing game session logic
(`src/src/lib.rs` of doocho/guess-number-wasm).

The Rust code is shallowly embedded: `u32` fields become `Nat` with the
saturating increment written out explicitly against `U32_MAX`; the mutable
methods become pure functions returning the new state; the JS exception
thrown on an out-of-range guess becomes an `Except` error value.  The
random draw of `rand::thread_rng().gen_range(1..=max)` is made explicit by
threading an arbitrary entropy value `r : Nat` into `generate_secret`.
-/

/-- `u32::MAX`, the saturation bound of the `attempts` counter. -/
def U32_MAX : Nat := 4294967295

namespace GuessNumber

/-- Embeds `generate_secret` (src/src/lib.rs:6-9).  The Rust function calls
`rand::thread_rng().gen_range(1..=max)`, a uniform draw from the inclusive
range `[1, max]`; the external entropy is made explicit as `r : Nat`, and
`1 + r % max` ranges over exactly `[1, max]` as `r` ranges over `Nat`
(for `max ≥ 1`, matching every call site, which clamps `max` to `≥ 1`). -/
def generate_secret (max r : Nat) : Nat :=
  1 + r % max

/-- The result tag of a guess: `"low" | "high" | "correct"`
(src/src/lib.rs:13). -/
inductive GuessResult where
  | low
  | high
  | correct
deriving DecidableEq, Repr

/-- Embeds `struct GuessResponse` (src/src/lib.rs:11-15). -/
structure GuessResponse where
  result : GuessResult
  attempts : Nat
deriving DecidableEq, Repr

/-- The single error condition: the JS exception
`wasm_bindgen::throw_str("Guess out of range")` (src/src/lib.rs:52). -/
inductive GuessError where
  | OutOfRange
deriving DecidableEq, Repr

/-- Embeds `struct Game` (src/src/lib.rs:17-23). -/
structure Game where
  secret : Nat
  max : Nat
  attempts : Nat
  finished : Bool
deriving DecidableEq, Repr

/-- `attempts.saturating_add(1)` on a `u32` (src/src/lib.rs:60). -/
def saturatingAdd1 (n : Nat) : Nat :=
  min (n + 1) U32_MAX

/-- Embeds `Game::new` (src/src/lib.rs:27-36): default `max` is 100,
a supplied `max` is clamped to a minimum of 1, the secret is drawn over
`[1, max]` with entropy `r`, and `attempts`/`finished` start at `0`/`false`. -/
def Game.new (max : Option Nat) (r : Nat) : Game :=
  let max_bound := Nat.max (max.getD 100) 1
  { secret := generate_secret max_bound r
    max := max_bound
    attempts := 0
    finished := false }

/-- Embeds `Game::reset` (src/src/lib.rs:38-46): a supplied `max` is clamped
to `≥ 1` and replaces the old bound, an absent one keeps it; the secret is
re-drawn over `[1, max]` with entropy `r`; `attempts` and `finished` are
cleared. -/
def Game.reset (g : Game) (max : Option Nat) (r : Nat) : Game :=
  let newMax :=
    match max with
    | some m => Nat.max m 1
    | none => g.max
  { secret := generate_secret newMax r
    max := newMax
    attempts := 0
    finished := false }

/-- Embeds `Game::guess` (src/src/lib.rs:48-73).  The pair carries the
call's outcome (the thrown exception or the serialized `GuessResponse`)
together with the post-call state of `&mut self`. -/
def Game.guess (g : Game) (value : Nat) : Except GuessError GuessResponse × Game :=
  if value < 1 ∨ value > g.max then
    (Except.error GuessError.OutOfRange, g)
  else if g.finished then
    (Except.ok { result := GuessResult.correct, attempts := g.attempts }, g)
  else
    let attempts := saturatingAdd1 g.attempts
    if value < g.secret then
      (Except.ok { result := GuessResult.low, attempts := attempts },
        { g with attempts := attempts })
    else if value > g.secret then
      (Except.ok { result := GuessResult.high, attempts := attempts },
        { g with attempts := attempts })
    else
      (Except.ok { result := GuessResult.correct, attempts := attempts },
        { g with attempts := attempts, finished := true })

/-- Embeds `Game::get_attempts` (src/src/lib.rs:76). -/
def Game.get_attempts (g : Game) : Nat := g.attempts

/-- Embeds `Game::get_max` (src/src/lib.rs:79). -/
def Game.get_max (g : Game) : Nat := g.max

/-- The bounds invariant `1 ≤ secret ≤ max` of a session. -/
def Game.Inv (g : Game) : Prop :=
  1 ≤ g.secret ∧ g.secret ≤ g.max

instance (g : Game) : Decidable g.Inv := by
  unfold Game.Inv; infer_instance

end GuessNumber

namespace GuessNumber

/-- Helper: in every branch, `guess` leaves `secret` and `max` untouched. -/
theorem guess_preserves_secret_max (g : Game) (value : Nat) :
    ((g.guess value).2.secret = g.secret) ∧ ((g.guess value).2.max = g.max) := by
  unfold Game.guess
  repeat' split
  all_goals simp

/-- Helper: an active, in-range guess sets `attempts` to the saturating
increment of the previous counter, in all three comparison branches,
and the response carries that same count. -/
theorem guess_active_attempts (g : Game) (value : Nat)
    (hfin : g.finished = false) (hlo : 1 ≤ value) (hhi : value ≤ g.max) :
    (g.guess value).2.attempts = saturatingAdd1 g.attempts := by
  unfold Game.guess
  rw [if_neg (by omega), hfin]
  simp only [Bool.false_eq_true, if_false]
  repeat' split
  all_goals simp

/-- Helper: `generate_secret max r` lies in `[1, max]` whenever `max ≥ 1`. -/
theorem generate_secret_bounds (max r : Nat) (h : 1 ≤ max) :
    1 ≤ generate_secret max r ∧ generate_secret max r ≤ max := by
  unfold generate_secret
  have := Nat.mod_lt r (show 0 < max by omega)
  omega

end GuessNumber

namespace GuessNumber

/-- C1: on an unfinished session, an in-range guess returns `low` when the
value is below the secret, `high` when above, and `correct` (setting
`finished`) when equal; in all three branches the returned `attempts`
equals the counter after its saturating increment, and that incremented
counter is stored back into the session. -/
theorem claim1_guess_active (g : Game) (value : Nat)
    (hfin : g.finished = false) (hlo : 1 ≤ value) (hhi : value ≤ g.max) :
    (value < g.secret →
      g.guess value =
        (Except.ok { result := GuessResult.low, attempts := saturatingAdd1 g.attempts },
          { g with attempts := saturatingAdd1 g.attempts })) ∧
    (value > g.secret →
      g.guess value =
        (Except.ok { result := GuessResult.high, attempts := saturatingAdd1 g.attempts },
          { g with attempts := saturatingAdd1 g.attempts })) ∧
    (value = g.secret →
      g.guess value =
        (Except.ok { result := GuessResult.correct, attempts := saturatingAdd1 g.attempts },
          { g with attempts := saturatingAdd1 g.attempts, finished := true })) := by
  unfold Game.guess
  rw [if_neg (by omega), hfin]
  simp only [Bool.false_eq_true, if_false]
  refine ⟨fun h => ?_, fun h => ?_, fun h => ?_⟩
  · rw [if_pos h]
  · rw [if_neg (by omega), if_pos h]
  · rw [if_neg (by omega), if_neg (by omega)]

/-- Witness for C1, on the session `{secret := 5, max := 10, attempts := 0,
finished := false}`: guessing 3 answers `low`, guessing 9 answers `high`,
and guessing 5 answers `correct` and marks the game finished, each with
`attempts = 1`. -/
theorem claim1_guess_active_witness :
    Game.guess ⟨5, 10, 0, false⟩ 3 =
      (Except.ok { result := GuessResult.low, attempts := saturatingAdd1 0 },
        ⟨5, 10, saturatingAdd1 0, false⟩) ∧
    Game.guess ⟨5, 10, 0, false⟩ 9 =
      (Except.ok { result := GuessResult.high, attempts := saturatingAdd1 0 },
        ⟨5, 10, saturatingAdd1 0, false⟩) ∧
    Game.guess ⟨5, 10, 0, false⟩ 5 =
      (Except.ok { result := GuessResult.correct, attempts := saturatingAdd1 0 },
        ⟨5, 10, saturatingAdd1 0, true⟩) :=
  ⟨(claim1_guess_active ⟨5, 10, 0, false⟩ 3 rfl (by decide) (by decide)).1 (by decide),
   (claim1_guess_active ⟨5, 10, 0, false⟩ 9 rfl (by decide) (by decide)).2.1 (by decide),
   (claim1_guess_active ⟨5, 10, 0, false⟩ 5 rfl (by decide) (by decide)).2.2 (by decide)⟩

/-- C2: a guess of a value below 1 or above `max` fails with `OutOfRange`
and leaves the whole session state — `secret`, `max`, `attempts`,
`finished` — exactly as it was, whether or not the game is finished. -/
theorem claim2_guess_out_of_range (g : Game) (value : Nat)
    (h : value < 1 ∨ value > g.max) :
    g.guess value = (Except.error GuessError.OutOfRange, g) := by
  unfold Game.guess
  rw [if_pos h]

/-- Witness for C2: on `{secret := 5, max := 10, attempts := 2,
finished := false}`, guessing 0 and guessing 11 both raise `OutOfRange`
with the state untouched. -/
theorem claim2_guess_out_of_range_witness :
    Game.guess ⟨5, 10, 2, false⟩ 0 =
      (Except.error GuessError.OutOfRange, ⟨5, 10, 2, false⟩) ∧
    Game.guess ⟨5, 10, 2, false⟩ 11 =
      (Except.error GuessError.OutOfRange, ⟨5, 10, 2, false⟩) :=
  ⟨claim2_guess_out_of_range ⟨5, 10, 2, false⟩ 0 (by decide),
   claim2_guess_out_of_range ⟨5, 10, 2, false⟩ 11 (by decide)⟩

/-- C3: on a finished session, any in-range guess returns `correct` with
the current attempt count, and the session state is completely unchanged;
the response does not depend on which in-range value was guessed. -/
theorem claim3_guess_finished (g : Game) (value : Nat)
    (hfin : g.finished = true) (hlo : 1 ≤ value) (hhi : value ≤ g.max) :
    g.guess value =
      (Except.ok { result := GuessResult.correct, attempts := g.attempts }, g) := by
  unfold Game.guess
  rw [if_neg (by omega), hfin]
  simp

/-- Witness for C3: on the won session `{secret := 7, max := 10,
attempts := 3, finished := true}`, guessing 1 returns `correct` with
`attempts = 3` and no state change. -/
theorem claim3_guess_finished_witness :
    Game.guess ⟨7, 10, 3, true⟩ 1 =
      (Except.ok { result := GuessResult.correct, attempts := 3 }, ⟨7, 10, 3, true⟩) :=
  claim3_guess_finished ⟨7, 10, 3, true⟩ 1 rfl (by decide) (by decide)

end GuessNumber

namespace GuessNumber

/-- C4: the bounds invariant `1 ≤ secret ≤ max` holds after construction
with any optional `max` and any draw, holds after reset with any optional
`max` (the secret is re-drawn over the new range) on a session whose `max`
is at least 1, and is preserved by `guess`; `get_attempts` and `get_max`
read the state without producing a new one, so they preserve it trivially. -/
theorem claim4_bounds_invariant (gmax : Option Nat) (r : Nat) (g : Game)
    (rmax : Option Nat) (value : Nat) :
    (Game.new gmax r).Inv ∧
    (1 ≤ g.max → (g.reset rmax r).Inv) ∧
    (g.Inv → ((g.guess value).2).Inv) := by
  refine ⟨?_, fun hmax => ?_, fun hinv => ?_⟩
  · unfold Game.new Game.Inv
    exact generate_secret_bounds _ r (Nat.le_max_right _ 1)
  · unfold Game.reset Game.Inv
    cases rmax with
    | some m => exact generate_secret_bounds _ r (Nat.le_max_right m 1)
    | none => exact generate_secret_bounds _ r hmax
  · unfold Game.Inv
    rw [(guess_preserves_secret_max g value).1, (guess_preserves_secret_max g value).2]
    exact hinv

/-- Witness for C4: constructing with `max = 10` and draw 12 gives a
session satisfying the invariant; resetting `{secret := 7, max := 10,
attempts := 3, finished := true}` to `max = 3` (smaller than the old
secret) keeps it; and an in-range guess on that session keeps it. -/
theorem claim4_bounds_invariant_witness :
    (Game.new (some 10) 12).Inv ∧
    ((Game.reset ⟨7, 10, 3, true⟩ (some 3) 12).Inv) ∧
    ((Game.guess ⟨7, 10, 3, true⟩ 4).2).Inv :=
  ⟨(claim4_bounds_invariant (some 10) 12 ⟨7, 10, 3, true⟩ (some 3) 4).1,
   (claim4_bounds_invariant (some 10) 12 ⟨7, 10, 3, true⟩ (some 3) 4).2.1 (by decide),
   (claim4_bounds_invariant (some 10) 12 ⟨7, 10, 3, true⟩ (some 3) 4).2.2 (by decide)⟩

/-- C5: the range check runs before the finished check — on a finished
session, an out-of-range guess still raises `OutOfRange` (with the state
unchanged) instead of returning the idempotent `correct` response. -/
theorem claim5_range_check_before_finished (g : Game) (value : Nat)
    (hfin : g.finished = true) (h : value < 1 ∨ value > g.max) :
    g.guess value = (Except.error GuessError.OutOfRange, g) := by
  unfold Game.guess
  rw [if_pos h]

/-- Witness for C5: on the won session `{secret := 7, max := 10,
attempts := 3, finished := true}`, guessing 0 raises `OutOfRange`. -/
theorem claim5_range_check_before_finished_witness :
    Game.guess ⟨7, 10, 3, true⟩ 0 =
      (Except.error GuessError.OutOfRange, ⟨7, 10, 3, true⟩) :=
  claim5_range_check_before_finished ⟨7, 10, 3, true⟩ 0 rfl (by decide)

/-- C6: construction with no argument sets `max = 100`; a supplied bound
below 1 becomes 1 and a bound at least 1 is kept as given; in every case
the fresh session has its secret in `[1, max]`, `attempts = 0` and
`finished = false` (the embedding of `Game::new` is total: there is no
error case). -/
theorem claim6_new_spec (gmax : Option Nat) (r : Nat) :
    (Game.new none r).get_max = 100 ∧
    (∀ m, m < 1 → (Game.new (some m) r).get_max = 1) ∧
    (∀ m, 1 ≤ m → (Game.new (some m) r).get_max = m) ∧
    (1 ≤ (Game.new gmax r).secret ∧ (Game.new gmax r).secret ≤ (Game.new gmax r).max) ∧
    (Game.new gmax r).attempts = 0 ∧
    (Game.new gmax r).finished = false := by
  refine ⟨rfl, fun m hm => ?_, fun m hm => ?_, ?_, rfl, rfl⟩
  · unfold Game.new Game.get_max
    simp
    omega
  · unfold Game.new Game.get_max
    simp
    omega
  · exact generate_secret_bounds _ r (Nat.le_max_right _ 1)

/-- Witness for C6: `new (some 0)` clamps the bound to 1,
`new (some 50)` keeps 50, and `new none` defaults to 100. -/
theorem claim6_new_spec_witness :
    (Game.new none 12).get_max = 100 ∧
    (Game.new (some 0) 12).get_max = 1 ∧
    (Game.new (some 50) 12).get_max = 50 :=
  ⟨(claim6_new_spec none 12).1,
   (claim6_new_spec (some 0) 12).2.1 0 (by decide),
   (claim6_new_spec (some 50) 12).2.2.1 50 (by decide)⟩

/-- C7: `reset`, from any session state, sets `attempts = 0` and
`finished = false` and re-draws the secret over `[1, max]` (stated for a
session whose current `max` is at least 1, the invariant every reachable
session satisfies); a supplied new bound is clamped to at least 1 and
replaces the old one, and an absent bound keeps the current `max`. -/
theorem claim7_reset_spec (g : Game) (rmax : Option Nat) (r : Nat)
    (hmax : 1 ≤ g.max) :
    (g.reset none r).max = g.max ∧
    (∀ m, (g.reset (some m) r).max = Nat.max m 1) ∧
    (1 ≤ (g.reset rmax r).secret ∧ (g.reset rmax r).secret ≤ (g.reset rmax r).max) ∧
    (g.reset rmax r).attempts = 0 ∧
    (g.reset rmax r).finished = false := by
  refine ⟨rfl, fun m => rfl, ?_, rfl, rfl⟩
  unfold Game.reset
  cases rmax with
  | some m => exact generate_secret_bounds _ r (Nat.le_max_right m 1)
  | none => exact generate_secret_bounds _ r hmax

/-- Witness for C7: resetting the won session `{secret := 7, max := 10,
attempts := 3, finished := true}` with no new bound keeps `max = 10`,
zeroes `attempts`, clears `finished`, and draws a secret in range;
supplying bound 0 would clamp it to 1. -/
theorem claim7_reset_spec_witness :
    (Game.reset ⟨7, 10, 3, true⟩ none 12).max = 10 ∧
    (Game.reset ⟨7, 10, 3, true⟩ (some 0) 12).max = Nat.max 0 1 ∧
    (Game.reset ⟨7, 10, 3, true⟩ none 12).attempts = 0 ∧
    (Game.reset ⟨7, 10, 3, true⟩ none 12).finished = false :=
  ⟨(claim7_reset_spec ⟨7, 10, 3, true⟩ none 12 (by decide)).1,
   (claim7_reset_spec ⟨7, 10, 3, true⟩ none 12 (by decide)).2.1 0,
   (claim7_reset_spec ⟨7, 10, 3, true⟩ none 12 (by decide)).2.2.2.1,
   (claim7_reset_spec ⟨7, 10, 3, true⟩ none 12 (by decide)).2.2.2.2⟩

end GuessNumber

namespace GuessNumber

/-- C8: each in-range guess on an unfinished session bumps `attempts` by
exactly 1 while the counter is below `u32::MAX`, and saturates there: with
`attempts = u32::MAX`, the counter stays at `u32::MAX`; in either case the
counter never exceeds `u32::MAX` (given it did not before), so it never
wraps. -/
theorem claim8_attempts_saturating (g : Game) (value : Nat)
    (hfin : g.finished = false) (hlo : 1 ≤ value) (hhi : value ≤ g.max)
    (hwf : g.attempts ≤ U32_MAX) :
    (g.attempts < U32_MAX → (g.guess value).2.attempts = g.attempts + 1) ∧
    (g.attempts = U32_MAX → (g.guess value).2.attempts = U32_MAX) ∧
    (g.guess value).2.attempts ≤ U32_MAX := by
  rw [guess_active_attempts g value hfin hlo hhi]
  unfold saturatingAdd1
  omega

/-- Witness for C8: a first guess moves `attempts` from 0 to 1, and a
guess at `attempts = u32::MAX` leaves the counter at `u32::MAX`. -/
theorem claim8_attempts_saturating_witness :
    (Game.guess ⟨5, 10, 0, false⟩ 3).2.attempts = 0 + 1 ∧
    (Game.guess ⟨5, 10, U32_MAX, false⟩ 3).2.attempts = U32_MAX :=
  ⟨(claim8_attempts_saturating ⟨5, 10, 0, false⟩ 3 rfl (by decide) (by decide)
      (by decide)).1 (by decide),
   (claim8_attempts_saturating ⟨5, 10, U32_MAX, false⟩ 3 rfl (by decide) (by decide)
      (Nat.le_refl _)).2.1 rfl⟩

/-- C9: `guess` never changes `secret` or `max`, whether it fails or
succeeds; `get_attempts` and `get_max` return the current `attempts` and
`max` fields and, being read-only accessors of the state, mutate nothing. -/
theorem claim9_frame (g : Game) (value : Nat) :
    ((g.guess value).2.secret = g.secret ∧ (g.guess value).2.max = g.max) ∧
    g.get_attempts = g.attempts ∧
    g.get_max = g.max :=
  ⟨guess_preserves_secret_max g value, rfl, rfl⟩

/-- C10: `guess` draws no randomness — two sessions agreeing on all four
fields (`secret`, `max`, `attempts`, `finished`) produce, for the same
guessed value, the same outcome (result and attempts, or the same
`OutOfRange` error) and the same post-state; only `new` and `reset` take
an entropy argument. -/
theorem claim10_guess_deterministic (g₁ g₂ : Game) (value : Nat)
    (hs : g₁.secret = g₂.secret) (hm : g₁.max = g₂.max)
    (ha : g₁.attempts = g₂.attempts) (hf : g₁.finished = g₂.finished) :
    g₁.guess value = g₂.guess value := by
  have hg : g₁ = g₂ := by
    cases g₁
    cases g₂
    simp_all
  rw [hg]

/-- Witness for C10: two identically-populated sessions give the same
answer to the guess 3. -/
theorem claim10_guess_deterministic_witness :
    Game.guess ⟨5, 10, 0, false⟩ 3 = Game.guess ⟨5, 10, 0, false⟩ 3 :=
  claim10_guess_deterministic ⟨5, 10, 0, false⟩ ⟨5, 10, 0, false⟩ 3 rfl rfl rfl rfl

end GuessNumber
